import Mathlib

/-!
Shallow embedding of the WMS terminal weather dashboard (Go) and proofs of
its specified properties.  Sources embedded:

* `internal/ui/components` moon component: `FetchMoonData`,
  `calculateMoonPhaseLocally`, `calculateNextPhase`.
* `internal/weather/models.go`: `WeatherAPIProvider.FetchWeather`,
  `degreeToDirection`.
* `internal/config/config.go`: `Config`, `DefaultConfig`, `ValidateConfig`.
* `internal/ui/models` dashboard model: the `Update` key/message handlers
  for the units-cycling key, weather fetch completion, and the location /
  API-key edit sub-states.

Go `float64` arithmetic is embedded as exact rational (`ℚ`) arithmetic;
Go machine integers as `ℤ`; Go slices as `List`; fallible calls as
`Except`/`Option`.  HTTP requests are external effects: each fetch
function takes the outcome of its one HTTP GET as an explicit argument.
-/

namespace WMS

/-- Go `int(x)` conversion of a `float64`: truncation toward zero. -/
def truncQ (q : ℚ) : ℤ := if 0 ≤ q then ⌊q⌋ else ⌈q⌉

/-- Outcome of reading and decoding the body of an HTTP response whose
decoded form has type `α`.  `readError` models an `io.ReadAll` failure,
`decodeError` a `json.Unmarshal` failure. -/
inductive BodyOutcome (α : Type) : Type
  | readError : BodyOutcome α
  | decodeError : BodyOutcome α
  | decoded (a : α) : BodyOutcome α
deriving DecidableEq

/-- Outcome of one HTTP GET: either a transport-level error
(`client.Get` returned a non-nil error) or a response with a status code
and a body. -/
inductive HttpOutcome (α : Type) : Type
  | netError : HttpOutcome α
  | response (status : ℕ) (body : BodyOutcome α) : HttpOutcome α
deriving DecidableEq

/-! ## Moon component (`internal/ui/components`, moon file)  -/

/-- `MoonData` from the moon component: one entry of the Farmsense API
response (fields used by the program). -/
structure MoonData where
  Phase : String
  Illumination : ℚ
  Age : ℚ
  Moon : List String
deriving DecidableEq

/-- `MoonResponse` is a wrapper for a slice of `MoonData`. -/
abbrev MoonResponse := List MoonData

/-- The synodic month length `29.53059` used by
`calculateMoonPhaseLocally`. -/
def lunarCycle : ℚ := 29.53059

/-- The illumination computation inside `calculateMoonPhaseLocally`:
`if cyclePosition <= 0.5 { illumination = cyclePosition * 2 } else
{ illumination = 2 - (cyclePosition * 2) }`. -/
def localIllumination (cyclePosition : ℚ) : ℚ :=
  if cyclePosition ≤ 0.5 then cyclePosition * 2 else 2 - cyclePosition * 2

/-- The phase-name switch inside `calculateMoonPhaseLocally`, classifying
the moon age in days into one of the 8 canonical phase names. -/
def localPhaseName (moonAge : ℚ) : String :=
  if moonAge < 1.84566 then "New Moon"
  else if moonAge < 5.53699 then "Waxing Crescent"
  else if moonAge < 9.22831 then "First Quarter"
  else if moonAge < 12.91963 then "Waxing Gibbous"
  else if moonAge < 16.61096 then "Full Moon"
  else if moonAge < 20.30228 then "Waning Gibbous"
  else if moonAge < 23.99361 then "Last Quarter"
  else if moonAge < 27.68493 then "Waning Crescent"
  else "New Moon"

/-- The 8 canonical phase names. -/
def canonicalPhases : List String :=
  ["New Moon", "Waxing Crescent", "First Quarter", "Waxing Gibbous",
   "Full Moon", "Waning Gibbous", "Last Quarter", "Waning Crescent"]

/-- `calculateMoonPhaseLocally`: the local astronomical fallback.  The Go
function computes `daysSinceJ2000` from `time.Now()`; here that quantity
is the argument.  It always returns `(data, nil)`; the `Except` error
component mirrors the Go `error` return value, which is always `nil`. -/
def calculateMoonPhaseLocally (daysSinceJ2000 : ℚ) : Except Unit MoonResponse :=
  let cyclePosition := daysSinceJ2000 / lunarCycle
  let cyclePosition := cyclePosition - (truncQ cyclePosition : ℚ)
  let moonAge := cyclePosition * lunarCycle
  let illumination := localIllumination cyclePosition
  let phaseName := localPhaseName moonAge
  .ok [{ Phase := phaseName, Illumination := illumination,
         Age := moonAge, Moon := ["Calculated"] }]

/-- `FetchMoonData`: one HTTP GET to the Farmsense API (outcome passed as
`r`), falling back to `calculateMoonPhaseLocally` on transport error,
non-200 status, body-read error, or JSON decode error. -/
def FetchMoonData (r : HttpOutcome MoonResponse) (daysSinceJ2000 : ℚ) :
    Except Unit MoonResponse :=
  match r with
  | .netError => calculateMoonPhaseLocally daysSinceJ2000
  | .response status body =>
    if status ≠ 200 then calculateMoonPhaseLocally daysSinceJ2000
    else
      match body with
      | .readError => calculateMoonPhaseLocally daysSinceJ2000
      | .decodeError => calculateMoonPhaseLocally daysSinceJ2000
      | .decoded moonData => .ok moonData

/-- The fetch outcomes that count as failures of the remote moon fetch:
network error, non-200 HTTP status, body-read error, JSON decode error. -/
def moonFetchFailed (r : HttpOutcome MoonResponse) : Prop :=
  match r with
  | .netError => True
  | .response status body =>
    status ≠ 200 ∨ body = .readError ∨ body = .decodeError

instance (r : HttpOutcome MoonResponse) : Decidable (moonFetchFailed r) := by
  unfold moonFetchFailed
  cases r <;> infer_instance

/-- `moonCycle = 29.53` from `calculateNextPhase`. -/
def moonCycle : ℚ := 29.53

/-- The phase-onset table of `calculateNextPhase`: phase names paired with
their onset age in days. -/
def moonPhases : List (String × ℚ) :=
  [("New Moon", 0), ("Waxing Crescent", 3.69), ("First Quarter", 7.38),
   ("Waxing Gibbous", 11.07), ("Full Moon", 14.77), ("Waning Gibbous", 18.46),
   ("Last Quarter", 22.15), ("Waning Crescent", 25.84)]

/-- The `for`-loop of `calculateNextPhase` with its early `return`:
the first table entry whose onset age is strictly above `currentAge`. -/
def findNextPhase (currentAge : ℚ) : List (String × ℚ) → Option (String × ℚ)
  | [] => none
  | phase :: rest =>
    if currentAge < phase.2 then some phase else findNextPhase currentAge rest

/-- `calculateNextPhase` (moon component; `api/moon.go` has the identical
`CalculateNextPhase` with an unused extra `currentPhase` argument):
returns the next phase name and the days until it, floored at 1. -/
def calculateNextPhase (currentAge : ℚ) : String × ℤ :=
  match findNextPhase currentAge moonPhases with
  | some phase =>
    let daysToNext := truncQ (phase.2 - currentAge)
    (phase.1, if daysToNext = 0 then 1 else daysToNext)
  | none =>
    let daysToNext := truncQ (moonCycle - currentAge)
    ("New Moon", if daysToNext = 0 then 1 else daysToNext)

/-! ## Weather provider adapters (`internal/weather/models.go`) -/

/-- The `location` block shared by `Weather` and `WeatherAPIResponse`. -/
structure WeatherLocation where
  Name : String
  Region : String
  Country : String
  Lat : ℚ
  Lon : ℚ
  LocalTime : String
deriving DecidableEq

/-- The nested `condition` object of a WeatherAPI response. -/
structure WeatherCondition where
  Text : String
  Icon : String
  Code : ℤ
deriving DecidableEq

/-- The `current` block of `WeatherAPIResponse`. -/
structure WeatherAPICurrent where
  TempC : ℚ
  TempF : ℚ
  IsDay : ℤ
  Condition : WeatherCondition
  WindMph : ℚ
  WindKph : ℚ
  WindDir : String
  Humidity : ℤ
  FeelslikeC : ℚ
  FeelslikeF : ℚ
  UV : ℚ
  PrecipMm : ℚ
  PressureMb : ℚ
  Cloud : ℤ
  Visibility : ℚ
deriving DecidableEq

/-- `WeatherAPIResponse`: the provider-specific decoded JSON. -/
structure WeatherAPIResponse where
  Location : WeatherLocation
  Current : WeatherAPICurrent
deriving DecidableEq

/-- The `current` block of the standardized `Weather` (condition is a
plain string). -/
structure WeatherCurrent where
  TempC : ℚ
  TempF : ℚ
  IsDay : ℤ
  Condition : String
  WindMph : ℚ
  WindKph : ℚ
  WindDir : String
  Humidity : ℤ
  FeelslikeC : ℚ
  FeelslikeF : ℚ
  UV : ℚ
  PrecipMm : ℚ
  PressureMb : ℚ
  Cloud : ℤ
  Visibility : ℚ
deriving DecidableEq

/-- `Weather`: the standardized weather data. -/
structure Weather where
  Location : WeatherLocation
  Current : WeatherCurrent
deriving DecidableEq

/-- The success-path conversion of `WeatherAPIProvider.FetchWeather` from
the provider response to the standardized `Weather` (the condition text is
extracted from the nested object). -/
def convertWeatherAPIResponse (resp : WeatherAPIResponse) : Weather :=
  { Location := resp.Location
    Current :=
      { TempC := resp.Current.TempC
        TempF := resp.Current.TempF
        IsDay := resp.Current.IsDay
        Condition := resp.Current.Condition.Text
        WindMph := resp.Current.WindMph
        WindKph := resp.Current.WindKph
        WindDir := resp.Current.WindDir
        Humidity := resp.Current.Humidity
        FeelslikeC := resp.Current.FeelslikeC
        FeelslikeF := resp.Current.FeelslikeF
        UV := resp.Current.UV
        PrecipMm := resp.Current.PrecipMm
        PressureMb := resp.Current.PressureMb
        Cloud := resp.Current.Cloud
        Visibility := resp.Current.Visibility } }

/-- `WeatherAPIProvider.FetchWeather`: one HTTP GET (outcome passed as
`r`); HTTP 401, 404 and other non-200 statuses map to the three error
messages of the source; read/decode failures map to their wrapped errors;
on success the response is converted to the standardized shape.  A
`.error` result corresponds to the Go `(nil, err)` return: the snapshot
is nil exactly when an error is returned. -/
def WeatherAPIProviderFetchWeather (location : String)
    (r : HttpOutcome WeatherAPIResponse) : Except String Weather :=
  match r with
  | .netError => .error "failed to send request"
  | .response status body =>
    if status = 401 then
      .error "invalid API key - please check your configuration"
    else if status = 404 then
      .error ("location \x27" ++ location ++ "\x27 not found - please check the spelling")
    else if status ≠ 200 then
      .error ("API returned status code " ++ toString status)
    else
      match body with
      | .readError => .error "failed to read response body"
      | .decodeError => .error "failed to parse JSON"
      | .decoded resp => .ok (convertWeatherAPIResponse resp)

/-- The 16-entry compass directions table of `degreeToDirection`. -/
def directions : List String :=
  ["N", "NNE", "NE", "ENE", "E", "ESE", "SE", "SSE",
   "S", "SSW", "SW", "WSW", "W", "WNW", "NW", "NNW"]

/-- Go slice indexing `l[i]` with an `int` index: a negative or
out-of-range index panics, modelled as `none`. -/
def goSliceGet (l : List String) (i : ℤ) : Option String :=
  if i < 0 then none else l.get? i.toNat

/-- `degreeToDirection`: `index := int((float64(degree)+11.25)/22.5) % 16`
(`%` is Go truncated remainder, `Int.tmod`), then `directions[index]`. -/
def degreeToDirection (degree : ℤ) : Option String :=
  let index := (truncQ (((degree : ℚ) + 11.25) / 22.5)).tmod 16
  goSliceGet directions index

/-! ## Configuration store (`internal/config/config.go`) -/

/-- Provider name constants. -/
def ProviderWeatherAPI : String := "WeatherAPI"

/-- Provider name constant for the keyless provider. -/
def ProviderOpenMeteo : String := "OpenMeteo"

/-- `Config`: all user-configurable settings. -/
structure Config where
  WeatherProvider : String
  Location : String
  LocationMode : String
  Units : String
  TimeFormat : String
  UseColors : Bool
  Compact : Bool
  ShowCityName : Bool
  RefreshInterval : ℤ
  WeatherAPIKey : String
deriving DecidableEq

/-- `DefaultConfig`: the documented default values. -/
def DefaultConfig : Config :=
  { WeatherProvider := ProviderWeatherAPI
    Location := "New York"
    LocationMode := "ip"
    Units := "metric"
    TimeFormat := "24"
    UseColors := true
    Compact := false
    ShowCityName := true
    RefreshInterval := 5
    WeatherAPIKey := "" }

/-- The first `if` block of `ValidateConfig`: validate the weather
provider. -/
def validateProviderStep (config : Config) : Config :=
  if config.WeatherProvider ≠ ProviderWeatherAPI ∧
      config.WeatherProvider ≠ ProviderOpenMeteo then
    { config with WeatherProvider := ProviderWeatherAPI }
  else config

/-- The second `if` block of `ValidateConfig`: validate the location
mode. -/
def validateLocationModeStep (config : Config) : Config :=
  if config.LocationMode ≠ "ip" ∧ config.LocationMode ≠ "manual" then
    { config with LocationMode := "ip" }
  else config

/-- The third check of `ValidateConfig`: validate the units (the source
tests membership in the `validUnits` set). -/
def validateUnitsStep (config : Config) : Config :=
  if config.Units ∉ ["metric", "imperial"] then
    { config with Units := "metric" }
  else config

/-- The fourth check of `ValidateConfig`: validate the time format (the
source tests membership in the `validTimeFormats` set). -/
def validateTimeFormatStep (config : Config) : Config :=
  if config.TimeFormat ∉ ["12", "24"] then
    { config with TimeFormat := "24" }
  else config

/-- The fifth `if` block of `ValidateConfig`: validate the refresh
interval. -/
def validateRefreshStep (config : Config) : Config :=
  if config.RefreshInterval < 1 ∨ config.RefreshInterval > 60 then
    { config with RefreshInterval := 5 }
  else config

/-- `ValidateConfig` (state component): the five field checks in source
order, each replacing an invalid value by its default.  The Go function
mutates `*Config` in place and returns nothing; the warnings it prints
to stderr are modelled separately by `ValidateConfigWarnings`. -/
def ValidateConfig (config : Config) : Config :=
  validateRefreshStep (validateTimeFormatStep (validateUnitsStep
    (validateLocationModeStep (validateProviderStep config))))

/-- `ValidateConfig` (stderr component): the warnings printed, in source
order.  The API-key warning tests the provider after its correction, as
in the source where the field was already mutated. -/
def ValidateConfigWarnings (config : Config) : List String :=
  (if config.WeatherProvider ≠ ProviderWeatherAPI ∧
      config.WeatherProvider ≠ ProviderOpenMeteo then
    ["Warning: Invalid weather provider in config. Using \x27WeatherAPI\x27 as default."]
  else []) ++
  (if config.LocationMode ≠ "ip" ∧ config.LocationMode ≠ "manual" then
    ["Warning: Invalid location mode in config. Using \x27ip\x27 as default."]
  else []) ++
  (if config.Units ∉ ["metric", "imperial"] then
    ["Warning: Invalid units in config. Using \x27metric\x27 as default."]
  else []) ++
  (if config.TimeFormat ∉ ["12", "24"] then
    ["Warning: Invalid time format in config. Using \x2724\x27 as default."]
  else []) ++
  (if config.RefreshInterval < 1 ∨ config.RefreshInterval > 60 then
    ["Warning: Invalid refresh interval in config. Using 5 minutes as default."]
  else []) ++
  (if (ValidateConfig config).WeatherProvider = ProviderWeatherAPI ∧
      config.WeatherAPIKey = "" then
    ["Warning: \x27weather_api_key\x27 is required for WeatherAPI provider."]
  else [])

/-! ## Application state machine (`internal/ui/models` dashboard model)

The richer model variant (tabs, settings, location and API-key edit
sub-states).  `time.Now()` is passed to each handler as `now : ℤ` (Unix
time).  The legacy `weather`/`sun` render components, untouched by every
handler embedded here, are omitted from the state. -/

/-- `Moon`: the moon component state. -/
structure Moon where
  Phase : String
  Illumination : ℚ
  NextPhase : String
  DaysToNext : ℤ
  Icon : String
  MoonName : String
  IsLoading : Bool
  Error : Option String
deriving DecidableEq

/-- `ViewMode`: the mutually exclusive top-level UI states. -/
inductive ViewMode : Type
  | ViewWeather
  | ViewMoon
  | ViewSolar
  | ViewSettings
  | ViewLocationInput
  | ViewAPIKeyInput
deriving DecidableEq

/-- `Model`: the application state. -/
structure Model where
  moon : Moon
  width : ℤ
  height : ℤ
  time : ℤ
  lastRefresh : ℤ
  viewMode : ViewMode
  refreshing : Bool
  statusMsg : String
  statusTimer : ℤ
  config : Config
  stormyWeather : Option Weather
  weatherError : Option String
  isEditingLocation : Bool
  locationInput : String
  settingsCursor : ℤ
  isEditingAPIKey : Bool
  apiKeyInput : String
deriving DecidableEq

/-- `tea.Cmd` values the embedded handlers return. -/
inductive Cmd : Type
  | nothing
  | quit
  | fetchWeatherWithConfig (cfg : Config)
deriving DecidableEq

/-- `messages.WeatherMsg`: a weather fetch completion, carrying either a
snapshot or an error. -/
structure WeatherMsg where
  weather : Option Weather
  error : Option String
deriving DecidableEq

/-- The `case "u"` branch of the richer `Model.Update`: cycle through all
combinations of units and time formats, then set the status timer and
dispatch a fetch with the updated config. -/
def updateUnitsKey (now : ℤ) (m : Model) : Model × Cmd :=
  let m :=
    if m.config.Units = "metric" ∧ m.config.TimeFormat = "24" then
      { m with config := { m.config with TimeFormat := "12" },
               statusMsg := "Units: Metric, Time: 12h" }
    else if m.config.Units = "metric" ∧ m.config.TimeFormat = "12" then
      { m with config := { m.config with Units := "imperial", TimeFormat := "24" },
               statusMsg := "Units: Imperial, Time: 24h" }
    else if m.config.Units = "imperial" ∧ m.config.TimeFormat = "24" then
      { m with config := { m.config with TimeFormat := "12" },
               statusMsg := "Units: Imperial, Time: 12h" }
    else if m.config.Units = "imperial" ∧ m.config.TimeFormat = "12" then
      { m with config := { m.config with Units := "metric", TimeFormat := "24" },
               statusMsg := "Units: Metric, Time: 24h" }
    else m
  let m := { m with statusTimer := now }
  (m, .fetchWeatherWithConfig m.config)

/-- The `case "u"` branch of `dashboard.go`'s `Model.Update` (the simpler
variant): `metric → imperial` (time format kept), `imperial/24 → 12`,
`imperial/12 → metric/24`. -/
def updateUnitsKeyDashboard (now : ℤ) (m : Model) : Model × Cmd :=
  let m :=
    if m.config.Units = "metric" then
      { m with config := { m.config with Units := "imperial" },
               statusMsg := "Units: Imperial" }
    else if m.config.Units = "imperial" ∧ m.config.TimeFormat = "24" then
      { m with config := { m.config with TimeFormat := "12" },
               statusMsg := "Time: 12-hour" }
    else if m.config.Units = "imperial" ∧ m.config.TimeFormat = "12" then
      { m with config := { m.config with Units := "metric", TimeFormat := "24" },
               statusMsg := "Units: Metric, Time: 24h" }
    else m
  let m := { m with statusTimer := now }
  (m, .fetchWeatherWithConfig m.config)

/-- The `messages.WeatherMsg` branch of `Model.Update` (identical in both
model variants): clear `refreshing`, store either the error (snapshot set
to nil) or the snapshot (error cleared), reset the status timer. -/
def handleWeatherMsg (now : ℤ) (m : Model) (msg : WeatherMsg) : Model × Cmd :=
  let m := { m with refreshing := false }
  let m :=
    if msg.error.isSome then
      { m with weatherError := msg.error, stormyWeather := none }
    else
      { m with stormyWeather := msg.weather, weatherError := none }
  let m := { m with statusTimer := now }
  (m, .nothing)

/-- `updateLocationInputView`: key handling while editing the location.
Go's `m.locationInput[:len-1]` byte slicing is modelled as dropping the
last character. -/
def updateLocationInputView (now : ℤ) (m : Model) (key : String) : Model × Cmd :=
  if key = "esc" then
    ({ m with isEditingLocation := false, viewMode := .ViewSettings,
              statusMsg := "Cancelled", statusTimer := now }, .nothing)
  else if key = "enter" then
    let m := { m with config := { m.config with Location := m.locationInput },
                      isEditingLocation := false, viewMode := .ViewSettings,
                      statusMsg := "Location saved!", statusTimer := now }
    (m, .fetchWeatherWithConfig m.config)
  else if key = "backspace" then
    (if m.locationInput.length > 0 then
      { m with locationInput := m.locationInput.dropRight 1 }
    else m, .nothing)
  else
    (if key.length = 1 then { m with locationInput := m.locationInput ++ key }
    else m, .nothing)

/-- `updateAPIKeyInputView`: key handling while editing the API key.  On
`enter` the source calls `config.SaveAPIKey` (a file write, external to
this embedding); its success is passed as `saveOk` and only selects the
status message. -/
def updateAPIKeyInputView (now : ℤ) (saveOk : Bool) (m : Model) (key : String) :
    Model × Cmd :=
  if key = "esc" then
    ({ m with isEditingAPIKey := false, viewMode := .ViewSettings,
              statusMsg := "Cancelled", statusTimer := now }, .nothing)
  else if key = "enter" then
    let m := { m with config := { m.config with WeatherAPIKey := m.apiKeyInput },
                      isEditingAPIKey := false, viewMode := .ViewSettings,
                      statusMsg := if saveOk then "API key saved!"
                                   else "Error saving API key",
                      statusTimer := now }
    (m, .fetchWeatherWithConfig m.config)
  else if key = "backspace" then
    (if m.apiKeyInput.length > 0 then
      { m with apiKeyInput := m.apiKeyInput.dropRight 1 }
    else m, .nothing)
  else
    (if key.length = 1 then { m with apiKeyInput := m.apiKeyInput ++ key }
    else m, .nothing)

/-- `updateMainView`: tab cycling among the three main views. -/
def updateMainView (m : Model) (key : String) : Model × Cmd :=
  if key = "tab" then
    ({ m with viewMode :=
        match m.viewMode with
        | .ViewWeather => .ViewMoon
        | .ViewMoon => .ViewSolar
        | _ => .ViewWeather }, .nothing)
  else if key = "shift+tab" then
    ({ m with viewMode :=
        match m.viewMode with
        | .ViewMoon => .ViewWeather
        | .ViewSolar => .ViewMoon
        | _ => .ViewSolar }, .nothing)
  else (m, .nothing)

/-- `updateSettingsView`: settings-menu key handling.  `writeOk` is the
result of the external `config.WriteConfig` file write on Save. -/
def updateSettingsView (_now : ℤ) (writeOk : Bool) (m : Model) (key : String) :
    Model × Cmd :=
  if key = "esc" then
    ({ m with viewMode := .ViewWeather, statusMsg := "" }, .nothing)
  else if key = "enter" then
    if m.settingsCursor = 0 then
      if m.config.LocationMode = "ip" then
        ({ m with config := { m.config with LocationMode := "manual" },
                  statusMsg := "Location: Manual" },
         .fetchWeatherWithConfig { m.config with LocationMode := "manual" })
      else
        ({ m with config := { m.config with LocationMode := "ip" },
                  statusMsg := "Location: IP Detection" },
         .fetchWeatherWithConfig { m.config with LocationMode := "ip" })
    else if m.settingsCursor = 1 then
      (if m.config.LocationMode = "manual" then
        { m with viewMode := .ViewLocationInput, isEditingLocation := true,
                 statusMsg := "Enter new location" }
      else m, .nothing)
    else if m.settingsCursor = 2 then
      ({ m with viewMode := .ViewAPIKeyInput, isEditingAPIKey := true,
                statusMsg := "Enter WeatherAPI key" }, .nothing)
    else if m.settingsCursor = 3 then
      ({ m with statusMsg := if writeOk then "Config saved!"
                             else "Error saving config",
                viewMode := .ViewWeather }, .nothing)
    else (m, .nothing)
  else if key = "up" then
    ({ m with settingsCursor := (m.settingsCursor - 1 + 4).emod 4 }, .nothing)
  else if key = "down" then
    ({ m with settingsCursor := (m.settingsCursor + 1).emod 4 }, .nothing)
  else (m, .nothing)

/-- The `tea.KeyMsg` dispatch of the richer `Model.Update`: edit
sub-states capture all keys; otherwise the global keys apply, then the
mode-specific handlers. -/
def updateKey (now : ℤ) (saveOk writeOk : Bool) (m : Model) (key : String) :
    Model × Cmd :=
  if m.isEditingLocation then updateLocationInputView now m key
  else if m.isEditingAPIKey then updateAPIKeyInputView now saveOk m key
  else if key = "q" ∨ key = "ctrl+c" then (m, .quit)
  else if key = "1" then ({ m with viewMode := .ViewWeather }, .nothing)
  else if key = "2" then ({ m with viewMode := .ViewMoon }, .nothing)
  else if key = "3" then ({ m with viewMode := .ViewSolar }, .nothing)
  else if key = "r" then
    ({ m with refreshing := true, statusMsg := "Refreshing...",
              stormyWeather := none, weatherError := none },
     .fetchWeatherWithConfig m.config)
  else if key = "u" then updateUnitsKey now m
  else if key = "t" then
    let m :=
      if m.config.TimeFormat = "24" then
        { m with config := { m.config with TimeFormat := "12" },
                 statusMsg := "Time: 12-hour" }
      else
        { m with config := { m.config with TimeFormat := "24" },
                 statusMsg := "Time: 24-hour" }
    ({ m with statusTimer := now }, .nothing)
  else if key = "s" then
    ({ m with viewMode := .ViewSettings, statusMsg := "Settings",
              statusTimer := now }, .nothing)
  else
    match m.viewMode with
    | .ViewWeather => updateMainView m key
    | .ViewMoon => updateMainView m key
    | .ViewSolar => updateMainView m key
    | .ViewSettings => updateSettingsView now writeOk m key
    | _ => (m, .nothing)

/-! ## Theorems -/

/-- C1: for every failure of the remote moon fetch (network error,
non-200 HTTP status, body-read error, or JSON decode error) and every
current time, `FetchMoonData` returns the non-error `MoonResponse`
produced by the local fallback calculator, whose Moon-name field is the
sentinel `["Calculated"]`; the error is never propagated to the caller. -/
theorem fetchMoonData_failure_falls_back (r : HttpOutcome MoonResponse)
    (d : ℚ) (h : moonFetchFailed r) :
    ∃ resp : MoonResponse,
      FetchMoonData r d = .ok resp ∧
      calculateMoonPhaseLocally d = .ok resp ∧
      ∃ md, resp = [md] ∧ md.Moon = ["Calculated"] := by
  obtain ⟨md, hmd, hMoon⟩ :
      ∃ md : MoonData, calculateMoonPhaseLocally d = .ok [md] ∧
        md.Moon = ["Calculated"] := ⟨_, rfl, rfl⟩
  refine ⟨[md], ?_, hmd, md, rfl, hMoon⟩
  cases r with
  | netError => simpa [FetchMoonData] using hmd
  | response status body =>
    by_cases hs : status = 200
    · subst hs
      simp only [moonFetchFailed] at h
      rcases h with h | h | h
      · exact absurd rfl h
      · subst h; simpa [FetchMoonData] using hmd
      · subst h; simpa [FetchMoonData] using hmd
    · simpa [FetchMoonData, hs] using hmd

/-- Witness for C1: the fallback is taken on a concrete HTTP 503
response. -/
theorem fetchMoonData_failure_falls_back_witness :
    ∃ resp : MoonResponse,
      FetchMoonData (.response 503 (.decoded [])) 0 = .ok resp ∧
      calculateMoonPhaseLocally 0 = .ok resp ∧
      ∃ md, resp = [md] ∧ md.Moon = ["Calculated"] :=
  fetchMoonData_failure_falls_back (.response 503 (.decoded [])) 0 (by decide)

/-- C4: the local fallback's illumination is the triangular wave in the
cycle position: `2 * cp` on the first half, `2 - 2 * cp` on the second,
equal to 0 at 0, 1 at the midpoint (where both branches agree, so the
wave is continuous there), and 0 again at a full cycle; and the phase
name computed from the moon age is always one of the 8 canonical phases.
The last conjunct ties this to `calculateMoonPhaseLocally` itself. -/
theorem localIllumination_triangular :
    (∀ cp : ℚ, 0 ≤ cp → cp ≤ 1/2 → localIllumination cp = 2 * cp) ∧
    (∀ cp : ℚ, 1/2 < cp → cp ≤ 1 → localIllumination cp = 2 - 2 * cp) ∧
    localIllumination 0 = 0 ∧
    localIllumination (1/2) = 1 ∧
    localIllumination 1 = 0 ∧
    (∀ cp : ℚ, cp = 1/2 → localIllumination cp = cp * 2 ∧
      localIllumination cp = 2 - cp * 2) ∧
    (∀ age : ℚ, localPhaseName age ∈ canonicalPhases) ∧
    (∀ d : ℚ, ∃ md : MoonData, calculateMoonPhaseLocally d = .ok [md] ∧
      md.Phase ∈ canonicalPhases ∧
      md.Illumination =
        localIllumination (d / lunarCycle - truncQ (d / lunarCycle))) := by
  have hphase : ∀ age : ℚ, localPhaseName age ∈ canonicalPhases := by
    intro age
    unfold localPhaseName
    split_ifs <;> simp [canonicalPhases]
  refine ⟨?_, ?_, ?_, ?_, ?_, ?_, hphase, ?_⟩
  · intro cp _ hcp
    rw [localIllumination, if_pos (by norm_num; linarith), mul_comm]
  · intro cp hcp _
    rw [localIllumination, if_neg (by norm_num; linarith)]
    ring
  · norm_num [localIllumination]
  · norm_num [localIllumination]
  · norm_num [localIllumination]
  · intro cp hcp
    subst hcp
    norm_num [localIllumination]
  · intro d
    exact ⟨_, rfl, hphase _, rfl⟩

/-- Witness for C4: the triangular wave evaluated on the first half at a
concrete cycle position. -/
theorem localIllumination_triangular_witness :
    localIllumination (1/4) = 2 * (1/4) :=
  localIllumination_triangular.1 (1/4) (by norm_num) (by norm_num)

/-- A successful `findNextPhase` result is a table entry whose onset age
is strictly above the current age. -/
theorem findNextPhase_mem_lt {age : ℚ} {l : List (String × ℚ)}
    {p : String × ℚ} (h : findNextPhase age l = some p) :
    p ∈ l ∧ age < p.2 := by
  induction l with
  | nil => simp [findNextPhase] at h
  | cons q rest ih =>
    by_cases hq : age < q.2
    · rw [findNextPhase, if_pos hq, Option.some_inj] at h
      exact ⟨h ▸ List.mem_cons_self q rest, h ▸ hq⟩
    · rw [findNextPhase, if_neg hq] at h
      obtain ⟨hmem, hlt⟩ := ih h
      exact ⟨List.mem_cons_of_mem q hmem, hlt⟩

/-- When `findNextPhase` finds nothing, every onset age is at most the
current age. -/
theorem findNextPhase_none {age : ℚ} {l : List (String × ℚ)}
    (h : findNextPhase age l = none) : ∀ q ∈ l, q.2 ≤ age := by
  induction l with
  | nil => simp
  | cons q rest ih =>
    by_cases hq : age < q.2
    · rw [findNextPhase, if_pos hq] at h
      exact absurd h (by simp)
    · rw [findNextPhase, if_neg hq] at h
      intro p hp
      rw [List.mem_cons] at hp
      rcases hp with rfl | hp
      · exact le_of_not_lt hq
      · exact ih h p hp

/-- On a table sorted by onset age, `findNextPhase` returns the entry
with the smallest onset age strictly above the current age. -/
theorem findNextPhase_min {age : ℚ} {l : List (String × ℚ)}
    {p : String × ℚ} (hs : l.Pairwise (fun a b => a.2 ≤ b.2))
    (h : findNextPhase age l = some p) :
    ∀ q ∈ l, age < q.2 → p.2 ≤ q.2 := by
  induction l with
  | nil => simp [findNextPhase] at h
  | cons a rest ih =>
    by_cases ha : age < a.2
    · rw [findNextPhase, if_pos ha, Option.some_inj] at h
      subst h
      intro q hq _
      rw [List.mem_cons] at hq
      rcases hq with rfl | hq
      · exact le_refl _
      · exact (List.pairwise_cons.mp hs).1 q hq
    · rw [findNextPhase, if_neg ha] at h
      intro q hq hlt
      rw [List.mem_cons] at hq
      rcases hq with rfl | hq
      · exact absurd hlt ha
      · exact ih (List.pairwise_cons.mp hs).2 h q hq hlt

/-- The phase-onset table is sorted by onset age. -/
theorem moonPhases_sorted : moonPhases.Pairwise (fun a b => a.2 ≤ b.2) := by
  norm_num [moonPhases, List.pairwise_cons]

/-- Onset ages in the table never exceed the Waning Crescent onset. -/
theorem moonPhases_snd_le : ∀ q ∈ moonPhases, q.2 ≤ (25.84 : ℚ) := by
  intro q hq
  fin_cases hq <;> norm_num

/-- Distinct entries of the table have distinct onset ages. -/
theorem moonPhases_snd_inj : ∀ p ∈ moonPhases, ∀ q ∈ moonPhases,
    p.2 = q.2 → p.1 = q.1 := by
  intro p hp q hq
  fin_cases hp <;> fin_cases hq <;> norm_num

/-- C3: for every age in `[0, 29.53)`, `calculateNextPhase` returns at
least 1 day to the next phase; the next phase name is the entry whose
onset threshold is the smallest threshold strictly greater than the
current age; and ages at or past the last threshold yield `"New Moon"`. -/
theorem calculateNextPhase_spec (age : ℚ) (_h0 : 0 ≤ age)
    (h1 : age < moonCycle) :
    1 ≤ (calculateNextPhase age).2 ∧
    (∀ name t, (name, t) ∈ moonPhases → age < t →
      (∀ q ∈ moonPhases, age < q.2 → t ≤ q.2) →
      (calculateNextPhase age).1 = name) ∧
    ((25.84 : ℚ) ≤ age → (calculateNextPhase age).1 = "New Moon") := by
  have htrunc : ∀ x : ℚ, 0 < x → 1 ≤ if truncQ x = 0 then 1 else truncQ x := by
    intro x hx
    have hfloor : 0 ≤ ⌊x⌋ := Int.floor_nonneg.mpr (le_of_lt hx)
    rw [truncQ, if_pos (le_of_lt hx)]
    split_ifs with h
    · exact le_refl 1
    · omega
  refine ⟨?_, ?_, ?_⟩
  · cases hf : findNextPhase age moonPhases with
    | some p =>
      obtain ⟨_, hlt⟩ := findNextPhase_mem_lt hf
      rw [calculateNextPhase, hf]
      exact htrunc _ (by linarith)
    | none =>
      rw [calculateNextPhase, hf]
      exact htrunc _ (by linarith)
  · intro name t hmem hlt hmin
    cases hf : findNextPhase age moonPhases with
    | some p =>
      obtain ⟨hpmem, hplt⟩ := findNextPhase_mem_lt hf
      have h₁ : p.2 ≤ t := findNextPhase_min moonPhases_sorted hf _ hmem hlt
      have h₂ : t ≤ p.2 := hmin p hpmem hplt
      have heq : p.1 = name :=
        moonPhases_snd_inj p hpmem (name, t) hmem (le_antisymm h₁ h₂)
      rw [calculateNextPhase, hf]
      exact heq
    | none =>
      have := findNextPhase_none hf (name, t) hmem
      exact absurd hlt (not_lt.mpr this)
  · intro hpast
    cases hf : findNextPhase age moonPhases with
    | some p =>
      obtain ⟨hpmem, hplt⟩ := findNextPhase_mem_lt hf
      have := moonPhases_snd_le p hpmem
      linarith
    | none => rw [calculateNextPhase, hf]

/-- Witness for C3 at age 10: at least one day to the next phase, which
is the Waxing Gibbous onset at 11.07, the smallest threshold above 10. -/
theorem calculateNextPhase_spec_witness :
    1 ≤ (calculateNextPhase 10).2 ∧ (calculateNextPhase 10).1 = "Waxing Gibbous" := by
  obtain ⟨hdays, hname, -⟩ :=
    calculateNextPhase_spec 10 (by norm_num) (by norm_num [moonCycle])
  refine ⟨hdays, hname "Waxing Gibbous" 11.07 (by norm_num [moonPhases])
    (by norm_num) ?_⟩
  intro q hq
  fin_cases hq <;> norm_num

/-- C2: for every location and response body, the keyed provider's
`FetchWeather` maps HTTP 401 to the "invalid API key" error, HTTP 404 to
a "location not found" error whose message contains the requested
location string, and any other non-200 status to the generic status-code
error.  In each case the result is `.error`, i.e. the snapshot is nil. -/
theorem weatherAPIFetchWeather_status_errors (location : String)
    (status : ℕ) (body : BodyOutcome WeatherAPIResponse)
    (h : status ≠ 200) :
    (status = 401 →
      WeatherAPIProviderFetchWeather location (.response status body) =
        .error "invalid API key - please check your configuration") ∧
    (status = 404 →
      ∃ msg, WeatherAPIProviderFetchWeather location (.response status body) =
          .error msg ∧
        msg = "location \x27" ++ location ++
          "\x27 not found - please check the spelling" ∧
        ∃ pre post, msg = pre ++ location ++ post) ∧
    (status ≠ 401 → status ≠ 404 →
      WeatherAPIProviderFetchWeather location (.response status body) =
        .error ("API returned status code " ++ toString status)) := by
  refine ⟨?_, ?_, ?_⟩
  · intro h401
    subst h401
    rfl
  · intro h404
    subst h404
    exact ⟨_, rfl, rfl, "location \x27",
      "\x27 not found - please check the spelling", rfl⟩
  · intro h401 h404
    show (if status = 401 then _ else if status = 404 then _
      else if status ≠ 200 then _ else _) = _
    rw [if_neg h401, if_neg h404, if_pos h]

/-- Witness for C2: HTTP 404 for location "Nowhereville" yields the
location-not-found error mentioning the location. -/
theorem weatherAPIFetchWeather_status_errors_witness :
    WeatherAPIProviderFetchWeather "Nowhereville" (.response 404 .decodeError) =
      .error "location \x27Nowhereville\x27 not found - please check the spelling" := by
  obtain ⟨-, h404, -⟩ :=
    weatherAPIFetchWeather_status_errors "Nowhereville" 404 .decodeError
      (by decide)
  obtain ⟨msg, heq, hmsg, -⟩ := h404 rfl
  rw [heq, hmsg]
  rfl

/-- C10: for every integer wind direction degree in `[0, 360]`, the index
computed by `degreeToDirection` lies in `[0, 15]`, so the lookup succeeds
and returns one of the 16 compass points, with degree 360 wrapping to
`"N"`; a sufficiently negative degree produces a negative index and an
out-of-range access (modelled as `none`). -/
theorem degreeToDirection_in_bounds (degree : ℤ) (h0 : 0 ≤ degree)
    (_h360 : degree ≤ 360) :
    (0 ≤ (truncQ (((degree : ℚ) + 11.25) / 22.5)).tmod 16 ∧
      (truncQ (((degree : ℚ) + 11.25) / 22.5)).tmod 16 ≤ 15) ∧
    (∃ s, degreeToDirection degree = some s ∧ s ∈ directions) ∧
    degreeToDirection 360 = some "N" ∧
    degreeToDirection (-180) = none := by
  have hq : (0 : ℚ) ≤ ((degree : ℚ) + 11.25) / 22.5 := by
    apply div_nonneg
    · have : (0 : ℚ) ≤ (degree : ℚ) := by exact_mod_cast h0
      linarith
    · norm_num
  have htrunc : 0 ≤ truncQ (((degree : ℚ) + 11.25) / 22.5) := by
    rw [truncQ, if_pos hq]
    exact Int.floor_nonneg.mpr hq
  have hmod : (truncQ (((degree : ℚ) + 11.25) / 22.5)).tmod 16 =
      truncQ (((degree : ℚ) + 11.25) / 22.5) % 16 := by
    rw [Int.tmod_eq_emod htrunc (by norm_num)]
  have hlo : 0 ≤ (truncQ (((degree : ℚ) + 11.25) / 22.5)).tmod 16 := by
    rw [hmod]
    exact Int.emod_nonneg _ (by norm_num)
  have hhi : (truncQ (((degree : ℚ) + 11.25) / 22.5)).tmod 16 ≤ 15 := by
    rw [hmod]
    have := Int.emod_lt_of_pos (truncQ (((degree : ℚ) + 11.25) / 22.5))
      (show (0 : ℤ) < 16 by norm_num)
    omega
  have h360N : degreeToDirection 360 = some "N" := by
    have h16 : truncQ ((((360 : ℤ) : ℚ) + 11.25) / 22.5) = 16 := by
      rw [truncQ, if_pos (by norm_num)]
      rw [Int.floor_eq_iff]
      constructor <;> norm_num
    simp only [degreeToDirection, goSliceGet, h16]
    rfl
  have hneg : degreeToDirection (-180) = none := by
    have h7 : truncQ ((((-180 : ℤ) : ℚ) + 11.25) / 22.5) = -7 := by
      rw [truncQ, if_neg (by norm_num)]
      rw [Int.ceil_eq_iff]
      constructor <;> norm_num
    simp only [degreeToDirection, goSliceGet, h7]
    rfl
  refine ⟨⟨hlo, hhi⟩, ?_, h360N, hneg⟩
  have hlen : ((truncQ (((degree : ℚ) + 11.25) / 22.5)).tmod 16).toNat <
      directions.length := by
    have h16 : directions.length = 16 := rfl
    omega
  refine ⟨directions.get ⟨_, hlen⟩, ?_, List.get_mem _ _ _⟩
  simp only [degreeToDirection, goSliceGet, if_neg (not_lt.mpr hlo)]
  exact List.get?_eq_get hlen

/-- Witness for C10: degree 45 maps in-bounds to the "NE" compass point. -/
theorem degreeToDirection_in_bounds_witness :
    ∃ s, degreeToDirection 45 = some s ∧ s ∈ directions :=
  (degreeToDirection_in_bounds 45 (by norm_num) (by norm_num)).2.1

/-- The validity invariant `ValidateConfig` establishes. -/
def ConfigValid (c : Config) : Prop :=
  (c.WeatherProvider = ProviderWeatherAPI ∨
    c.WeatherProvider = ProviderOpenMeteo) ∧
  (c.LocationMode = "ip" ∨ c.LocationMode = "manual") ∧
  (c.Units = "metric" ∨ c.Units = "imperial") ∧
  (c.TimeFormat = "12" ∨ c.TimeFormat = "24") ∧
  (1 ≤ c.RefreshInterval ∧ c.RefreshInterval ≤ 60)

/-- Evaluation of the provider step as a single record update. -/
theorem validateProviderStep_eval (c : Config) :
    validateProviderStep c = { c with WeatherProvider :=
      if c.WeatherProvider ≠ ProviderWeatherAPI ∧
          c.WeatherProvider ≠ ProviderOpenMeteo
      then ProviderWeatherAPI else c.WeatherProvider } := by
  unfold validateProviderStep
  split_ifs <;> rfl

/-- Evaluation of the location-mode step as a single record update. -/
theorem validateLocationModeStep_eval (c : Config) :
    validateLocationModeStep c = { c with LocationMode :=
      if c.LocationMode ≠ "ip" ∧ c.LocationMode ≠ "manual"
      then "ip" else c.LocationMode } := by
  unfold validateLocationModeStep
  split_ifs <;> rfl

/-- Evaluation of the units step as a single record update. -/
theorem validateUnitsStep_eval (c : Config) :
    validateUnitsStep c = { c with Units :=
      if c.Units ∉ ["metric", "imperial"] then "metric" else c.Units } := by
  unfold validateUnitsStep
  split_ifs <;> rfl

/-- Evaluation of the time-format step as a single record update. -/
theorem validateTimeFormatStep_eval (c : Config) :
    validateTimeFormatStep c = { c with TimeFormat :=
      if c.TimeFormat ∉ ["12", "24"] then "24" else c.TimeFormat } := by
  unfold validateTimeFormatStep
  split_ifs <;> rfl

/-- Evaluation of the refresh-interval step as a single record update. -/
theorem validateRefreshStep_eval (c : Config) :
    validateRefreshStep c = { c with RefreshInterval :=
      if c.RefreshInterval < 1 ∨ c.RefreshInterval > 60
      then 5 else c.RefreshInterval } := by
  unfold validateRefreshStep
  split_ifs <;> rfl

/-- Evaluation of the whole of `ValidateConfig` as one record update:
the five checks act on disjoint fields, so each sees the original
value of the field it validates. -/
theorem validateConfig_eval (c : Config) :
    ValidateConfig c = { c with
      WeatherProvider :=
        if c.WeatherProvider ≠ ProviderWeatherAPI ∧
            c.WeatherProvider ≠ ProviderOpenMeteo
        then ProviderWeatherAPI else c.WeatherProvider,
      LocationMode :=
        if c.LocationMode ≠ "ip" ∧ c.LocationMode ≠ "manual"
        then "ip" else c.LocationMode,
      Units := if c.Units ∉ ["metric", "imperial"] then "metric" else c.Units,
      TimeFormat :=
        if c.TimeFormat ∉ ["12", "24"] then "24" else c.TimeFormat,
      RefreshInterval :=
        if c.RefreshInterval < 1 ∨ c.RefreshInterval > 60
        then 5 else c.RefreshInterval } := by
  rw [ValidateConfig, validateProviderStep_eval, validateLocationModeStep_eval,
    validateUnitsStep_eval, validateTimeFormatStep_eval,
    validateRefreshStep_eval]

/-- `ValidateConfig` establishes the validity invariant. -/
theorem validateConfig_valid (c : Config) : ConfigValid (ValidateConfig c) := by
  rw [ConfigValid, validateConfig_eval]
  refine ⟨?_, ?_, ?_, ?_, ?_⟩
  · show (if c.WeatherProvider ≠ ProviderWeatherAPI ∧
          c.WeatherProvider ≠ ProviderOpenMeteo
        then ProviderWeatherAPI else c.WeatherProvider) = ProviderWeatherAPI ∨
      (if c.WeatherProvider ≠ ProviderWeatherAPI ∧
          c.WeatherProvider ≠ ProviderOpenMeteo
        then ProviderWeatherAPI else c.WeatherProvider) = ProviderOpenMeteo
    split_ifs with h
    · exact Or.inl rfl
    · tauto
  · show (if c.LocationMode ≠ "ip" ∧ c.LocationMode ≠ "manual"
        then "ip" else c.LocationMode) = "ip" ∨
      (if c.LocationMode ≠ "ip" ∧ c.LocationMode ≠ "manual"
        then "ip" else c.LocationMode) = "manual"
    split_ifs with h
    · exact Or.inl rfl
    · tauto
  · show (if c.Units ∉ ["metric", "imperial"]
        then "metric" else c.Units) = "metric" ∨
      (if c.Units ∉ ["metric", "imperial"]
        then "metric" else c.Units) = "imperial"
    split_ifs with h
    · simpa using h
    · exact Or.inl rfl
  · show (if c.TimeFormat ∉ ["12", "24"]
        then "24" else c.TimeFormat) = "12" ∨
      (if c.TimeFormat ∉ ["12", "24"]
        then "24" else c.TimeFormat) = "24"
    split_ifs with h
    · simpa using h
    · exact Or.inr rfl
  · show 1 ≤ (if c.RefreshInterval < 1 ∨ c.RefreshInterval > 60
        then (5 : ℤ) else c.RefreshInterval) ∧
      (if c.RefreshInterval < 1 ∨ c.RefreshInterval > 60
        then (5 : ℤ) else c.RefreshInterval) ≤ 60
    split_ifs with h <;> omega

/-- `ValidateConfig` is the identity on configurations already valid. -/
theorem validateConfig_id_of_valid {c : Config} (h : ConfigValid c) :
    ValidateConfig c = c := by
  obtain ⟨h1, h2, h3, h4, h5⟩ := h
  have n1 : ¬(c.WeatherProvider ≠ ProviderWeatherAPI ∧
      c.WeatherProvider ≠ ProviderOpenMeteo) := by tauto
  have n2 : ¬(c.LocationMode ≠ "ip" ∧ c.LocationMode ≠ "manual") := by tauto
  have n3 : ¬(c.Units ∉ ["metric", "imperial"]) := by
    rcases h3 with h | h <;> simp [h]
  have n4 : ¬(c.TimeFormat ∉ ["12", "24"]) := by
    rcases h4 with h | h <;> simp [h]
  have n5 : ¬(c.RefreshInterval < 1 ∨ c.RefreshInterval > 60) := by omega
  rw [validateConfig_eval, if_neg n1, if_neg n2, if_neg n3, if_neg n4,
    if_neg n5]

/-- Each invalid field is replaced by its documented default, each valid
field is kept, and the fields `ValidateConfig` never touches are
unchanged. -/
theorem validateConfig_corrections (c : Config) :
    (c.WeatherProvider ≠ ProviderWeatherAPI ∧
        c.WeatherProvider ≠ ProviderOpenMeteo →
      (ValidateConfig c).WeatherProvider = ProviderWeatherAPI) ∧
    (c.LocationMode ≠ "ip" ∧ c.LocationMode ≠ "manual" →
      (ValidateConfig c).LocationMode = "ip") ∧
    (c.Units ∉ ["metric", "imperial"] → (ValidateConfig c).Units = "metric") ∧
    (c.TimeFormat ∉ ["12", "24"] → (ValidateConfig c).TimeFormat = "24") ∧
    (c.RefreshInterval < 1 ∨ c.RefreshInterval > 60 →
      (ValidateConfig c).RefreshInterval = 5) ∧
    ((c.WeatherProvider = ProviderWeatherAPI ∨
        c.WeatherProvider = ProviderOpenMeteo) →
      (ValidateConfig c).WeatherProvider = c.WeatherProvider) ∧
    (c.LocationMode = "ip" ∨ c.LocationMode = "manual" →
      (ValidateConfig c).LocationMode = c.LocationMode) ∧
    (c.Units ∈ ["metric", "imperial"] → (ValidateConfig c).Units = c.Units) ∧
    (c.TimeFormat ∈ ["12", "24"] →
      (ValidateConfig c).TimeFormat = c.TimeFormat) ∧
    (1 ≤ c.RefreshInterval ∧ c.RefreshInterval ≤ 60 →
      (ValidateConfig c).RefreshInterval = c.RefreshInterval) ∧
    (ValidateConfig c).Location = c.Location ∧
    (ValidateConfig c).UseColors = c.UseColors ∧
    (ValidateConfig c).Compact = c.Compact ∧
    (ValidateConfig c).ShowCityName = c.ShowCityName ∧
    (ValidateConfig c).WeatherAPIKey = c.WeatherAPIKey := by
  rw [validateConfig_eval]
  refine ⟨fun h => ?_, fun h => ?_, fun h => ?_, fun h => ?_, fun h => ?_,
    fun h => ?_, fun h => ?_, fun h => ?_, fun h => ?_, fun h => ?_,
    rfl, rfl, rfl, rfl, rfl⟩
  · show (if _ then _ else _) = _
    rw [if_pos h]
  · show (if _ then _ else _) = _
    rw [if_pos h]
  · show (if _ then _ else _) = _
    rw [if_pos h]
  · show (if _ then _ else _) = _
    rw [if_pos h]
  · show (if _ then _ else _) = _
    rw [if_pos h]
  · show (if _ then _ else _) = _
    rw [if_neg (by tauto)]
  · show (if _ then _ else _) = _
    rw [if_neg (by tauto)]
  · show (if _ then _ else _) = _
    rw [if_neg (by simp_all)]
  · show (if _ then _ else _) = _
    rw [if_neg (by simp_all)]
  · show (if _ then _ else _) = _
    rw [if_neg (by omega)]

/-- C5: for every input configuration, `ValidateConfig` leaves the
provider in the known set, units metric/imperial, time format 12/24 and
refresh interval in `[1, 60]`; every invalid field is replaced by its
documented default while its warning is emitted; the other fields are
untouched; and validation is a total function (never fails or aborts). -/
theorem validateConfig_spec (c : Config) :
    ConfigValid (ValidateConfig c) ∧
    (c.WeatherProvider ≠ ProviderWeatherAPI ∧
        c.WeatherProvider ≠ ProviderOpenMeteo →
      (ValidateConfig c).WeatherProvider = ProviderWeatherAPI ∧
      "Warning: Invalid weather provider in config. Using \x27WeatherAPI\x27 as default."
        ∈ ValidateConfigWarnings c) ∧
    (c.LocationMode ≠ "ip" ∧ c.LocationMode ≠ "manual" →
      (ValidateConfig c).LocationMode = "ip" ∧
      "Warning: Invalid location mode in config. Using \x27ip\x27 as default."
        ∈ ValidateConfigWarnings c) ∧
    (c.Units ∉ ["metric", "imperial"] →
      (ValidateConfig c).Units = "metric" ∧
      "Warning: Invalid units in config. Using \x27metric\x27 as default."
        ∈ ValidateConfigWarnings c) ∧
    (c.TimeFormat ∉ ["12", "24"] →
      (ValidateConfig c).TimeFormat = "24" ∧
      "Warning: Invalid time format in config. Using \x2724\x27 as default."
        ∈ ValidateConfigWarnings c) ∧
    (c.RefreshInterval < 1 ∨ c.RefreshInterval > 60 →
      (ValidateConfig c).RefreshInterval = 5 ∧
      "Warning: Invalid refresh interval in config. Using 5 minutes as default."
        ∈ ValidateConfigWarnings c) ∧
    (ValidateConfig c).Location = c.Location ∧
    (ValidateConfig c).UseColors = c.UseColors ∧
    (ValidateConfig c).Compact = c.Compact ∧
    (ValidateConfig c).ShowCityName = c.ShowCityName ∧
    (ValidateConfig c).WeatherAPIKey = c.WeatherAPIKey := by
  obtain ⟨k1, k2, k3, k4, k5, -, -, -, -, -, f1, f2, f3, f4, f5⟩ :=
    validateConfig_corrections c
  refine ⟨validateConfig_valid c, ?_, ?_, ?_, ?_, ?_, f1, f2, f3, f4, f5⟩
  · intro h
    refine ⟨k1 h, ?_⟩
    unfold ValidateConfigWarnings
    refine List.mem_append.mpr (Or.inl (List.mem_append.mpr (Or.inl
      (List.mem_append.mpr (Or.inl (List.mem_append.mpr (Or.inl
      (List.mem_append.mpr (Or.inl ?_)))))))))
    rw [if_pos h]
    exact List.mem_singleton.mpr rfl
  · intro h
    refine ⟨k2 h, ?_⟩
    unfold ValidateConfigWarnings
    refine List.mem_append.mpr (Or.inl (List.mem_append.mpr (Or.inl
      (List.mem_append.mpr (Or.inl (List.mem_append.mpr (Or.inl
      (List.mem_append.mpr (Or.inr ?_)))))))))
    rw [if_pos h]
    exact List.mem_singleton.mpr rfl
  · intro h
    refine ⟨k3 h, ?_⟩
    unfold ValidateConfigWarnings
    refine List.mem_append.mpr (Or.inl (List.mem_append.mpr (Or.inl
      (List.mem_append.mpr (Or.inl (List.mem_append.mpr (Or.inr ?_)))))))
    rw [if_pos h]
    exact List.mem_singleton.mpr rfl
  · intro h
    refine ⟨k4 h, ?_⟩
    unfold ValidateConfigWarnings
    refine List.mem_append.mpr (Or.inl (List.mem_append.mpr (Or.inl
      (List.mem_append.mpr (Or.inr ?_)))))
    rw [if_pos h]
    exact List.mem_singleton.mpr rfl
  · intro h
    refine ⟨k5 h, ?_⟩
    unfold ValidateConfigWarnings
    refine List.mem_append.mpr (Or.inl (List.mem_append.mpr (Or.inr ?_)))
    rw [if_pos h]
    exact List.mem_singleton.mpr rfl

/-- A fully invalid configuration, used as a concrete test input. -/
def bogusConfig : Config :=
  { WeatherProvider := "bogus"
    Location := "Paris"
    LocationMode := "gps"
    Units := "kelvin"
    TimeFormat := "25"
    UseColors := true
    Compact := false
    ShowCityName := true
    RefreshInterval := 0
    WeatherAPIKey := "k" }

/-- Witness for C5: a fully invalid configuration is corrected to the
documented defaults. -/
theorem validateConfig_spec_witness :
    (ValidateConfig bogusConfig).WeatherProvider = ProviderWeatherAPI := by
  have h := (validateConfig_spec bogusConfig).2.1
  exact (h (by simp [bogusConfig, ProviderWeatherAPI, ProviderOpenMeteo])).1

/-- C6: `ValidateConfig` is idempotent. -/
theorem validateConfig_idempotent (c : Config) :
    ValidateConfig (ValidateConfig c) = ValidateConfig c :=
  validateConfig_id_of_valid (validateConfig_valid c)

/-- The fixed 4-state sequence the richer variant's units key follows:
Metric/24h → Metric/12h → Imperial/24h → Imperial/12h → Metric/24h. -/
def unitsCycleStep : String × String → String × String
  | ("metric", "24") => ("metric", "12")
  | ("metric", "12") => ("imperial", "24")
  | ("imperial", "24") => ("imperial", "12")
  | ("imperial", "12") => ("metric", "24")
  | p => p

/-- The four units/time-format combinations. -/
def allUnitsTimeStates : List (String × String) :=
  [("metric", "24"), ("metric", "12"), ("imperial", "24"), ("imperial", "12")]

/-- A concrete application state with metric units and 24-hour time,
used as a test input. -/
def metricModel : Model :=
  { moon :=
      { Phase := "Full Moon"
        Illumination := 50
        NextPhase := "Waning Gibbous"
        DaysToNext := 4
        Icon := "*"
        MoonName := ""
        IsLoading := false
        Error := none }
    width := 80
    height := 24
    time := 0
    lastRefresh := 0
    viewMode := .ViewWeather
    refreshing := false
    statusMsg := ""
    statusTimer := 0
    config := DefaultConfig
    stormyWeather := none
    weatherError := none
    isEditingLocation := false
    locationInput := "New York"
    settingsCursor := 0
    isEditingAPIKey := false
    apiKeyInput := "" }

/-- C7 counterexample: for the `dashboard.go` variant of the units-key
handler (one of the two handlers the claim covers), four applications do
not return the (units, time-format) pair to its start: from
Metric/24h the handler reaches Imperial/24h after four presses, because
its cycle is the 3-state loop Metric/24h → Imperial/24h → Imperial/12h →
Metric/24h that never shows Metric/12h. -/
theorem dashboardUnitsKey_not_four_cycle :
    ¬ (∀ m : Model,
      (m.config.Units = "metric" ∨ m.config.Units = "imperial") →
      (m.config.TimeFormat = "24" ∨ m.config.TimeFormat = "12") →
      (((fun s => (updateUnitsKeyDashboard 0 s).1)^[4] m).config.Units,
        ((fun s => (updateUnitsKeyDashboard 0 s).1)^[4] m).config.TimeFormat) =
        (m.config.Units, m.config.TimeFormat)) := by
  intro h
  have h4 := h metricModel (Or.inl rfl) (Or.inl rfl)
  exact absurd h4 (by decide)

/-- C7 (amended): for the richer model variant, the units key advances
the (units, time-format) pair along the fixed 4-state cycle
`unitsCycleStep`; the orbit visits all four combinations, and four
applications (of the cycle, and of the handler itself) return the pair
to its starting value. -/
theorem unitsKey_four_cycle (now : ℤ) (m : Model)
    (hU : m.config.Units = "metric" ∨ m.config.Units = "imperial")
    (hT : m.config.TimeFormat = "24" ∨ m.config.TimeFormat = "12") :
    (((updateUnitsKey now m).1.config.Units,
        (updateUnitsKey now m).1.config.TimeFormat) =
      unitsCycleStep (m.config.Units, m.config.TimeFormat)) ∧
    List.Perm
      [(m.config.Units, m.config.TimeFormat),
        unitsCycleStep (m.config.Units, m.config.TimeFormat),
        unitsCycleStep^[2] (m.config.Units, m.config.TimeFormat),
        unitsCycleStep^[3] (m.config.Units, m.config.TimeFormat)]
      allUnitsTimeStates ∧
    unitsCycleStep^[4] (m.config.Units, m.config.TimeFormat) =
      (m.config.Units, m.config.TimeFormat) ∧
    ((fun s => (updateUnitsKey now s).1)^[4] m).config.Units =
      m.config.Units ∧
    ((fun s => (updateUnitsKey now s).1)^[4] m).config.TimeFormat =
      m.config.TimeFormat := by
  rcases hU with hU | hU <;> rcases hT with hT | hT <;>
    refine ⟨?_, ?_, ?_, ?_, ?_⟩ <;>
    simp [updateUnitsKey, unitsCycleStep, allUnitsTimeStates, hU, hT,
      Function.iterate_succ_apply, List.Perm] <;>
    decide

/-- Witness for C7 (amended): one press from Metric/24h lands on
Metric/12h, the next state of the 4-cycle. -/
theorem unitsKey_four_cycle_witness :
    ((updateUnitsKey 0 metricModel).1.config.Units,
      (updateUnitsKey 0 metricModel).1.config.TimeFormat) =
      unitsCycleStep (metricModel.config.Units,
        metricModel.config.TimeFormat) :=
  (unitsKey_four_cycle 0 metricModel (Or.inl rfl) (Or.inl rfl)).1

/-- C8: a weather fetch completion is applied atomically to the
snapshot/error slot: on failure the error is stored and the snapshot set
to nil, on success the stored snapshot equals the fetched snapshot in
its entirety (no field-wise merge) and the error is cleared; afterwards
the snapshot and error are never both non-nil, and every state field
other than the snapshot/error slot, the `refreshing` flag and the status
timer is unchanged. -/
theorem weatherMsg_atomic (now : ℤ) (m : Model) (msg : WeatherMsg) :
    (∀ e, msg.error = some e →
      (handleWeatherMsg now m msg).1.weatherError = some e ∧
      (handleWeatherMsg now m msg).1.stormyWeather = none) ∧
    (msg.error = none →
      (handleWeatherMsg now m msg).1.stormyWeather = msg.weather ∧
      (handleWeatherMsg now m msg).1.weatherError = none) ∧
    ¬((handleWeatherMsg now m msg).1.stormyWeather ≠ none ∧
      (handleWeatherMsg now m msg).1.weatherError ≠ none) ∧
    (handleWeatherMsg now m msg).1.config = m.config ∧
    (handleWeatherMsg now m msg).1.viewMode = m.viewMode ∧
    (handleWeatherMsg now m msg).1.moon = m.moon ∧
    (handleWeatherMsg now m msg).1.statusMsg = m.statusMsg ∧
    (handleWeatherMsg now m msg).1.locationInput = m.locationInput ∧
    (handleWeatherMsg now m msg).1.apiKeyInput = m.apiKeyInput ∧
    (handleWeatherMsg now m msg).1.isEditingLocation = m.isEditingLocation ∧
    (handleWeatherMsg now m msg).1.isEditingAPIKey = m.isEditingAPIKey ∧
    (handleWeatherMsg now m msg).1.settingsCursor = m.settingsCursor ∧
    (handleWeatherMsg now m msg).1.refreshing = false := by
  cases hmsg : msg.error <;> simp [handleWeatherMsg, hmsg]

/-- Witness for C8: a failed fetch stores the error and clears the
snapshot on a concrete state. -/
theorem weatherMsg_atomic_witness :
    (handleWeatherMsg 0 metricModel
      { weather := none, error := some "boom" }).1.weatherError =
        some "boom" ∧
    (handleWeatherMsg 0 metricModel
      { weather := none, error := some "boom" }).1.stormyWeather = none :=
  (weatherMsg_atomic 0 metricModel
    { weather := none, error := some "boom" }).1 "boom" rfl

/-- C9: in an edit sub-state, Escape discards the edit (returning to
Settings with the whole configuration — location and API key included —
and every other field except the edit flag, view mode, status message
and status timer unchanged), while Enter commits the buffer to the
corresponding configuration field and returns to Settings.  Stated for
the key dispatch `updateKey`, which routes every key to the edit handler
while an edit flag is set. -/
theorem editSubstate_commit_discard (now : ℤ) (saveOk writeOk : Bool)
    (m : Model) :
    (m.isEditingLocation = true →
      (updateKey now saveOk writeOk m "esc").1 =
        { m with
            isEditingLocation := false
            viewMode := .ViewSettings
            statusMsg := "Cancelled"
            statusTimer := now }) ∧
    (m.isEditingLocation = true →
      (updateKey now saveOk writeOk m "enter").1 =
        { m with
            config := { m.config with Location := m.locationInput }
            isEditingLocation := false
            viewMode := .ViewSettings
            statusMsg := "Location saved!"
            statusTimer := now }) ∧
    (m.isEditingLocation = false → m.isEditingAPIKey = true →
      (updateKey now saveOk writeOk m "esc").1 =
        { m with
            isEditingAPIKey := false
            viewMode := .ViewSettings
            statusMsg := "Cancelled"
            statusTimer := now }) ∧
    (m.isEditingLocation = false → m.isEditingAPIKey = true →
      (updateKey now saveOk writeOk m "enter").1 =
        { m with
            config := { m.config with WeatherAPIKey := m.apiKeyInput }
            isEditingAPIKey := false
            viewMode := .ViewSettings
            statusMsg := if saveOk then "API key saved!"
                         else "Error saving API key"
            statusTimer := now }) := by
  refine ⟨fun hL => ?_, fun hL => ?_, fun hL hA => ?_, fun hL hA => ?_⟩ <;>
    simp [updateKey, updateLocationInputView, updateAPIKeyInputView, hL]
  · simp [hA]
  · simp [hA]

/-- A concrete state editing the location, used as a test input. -/
def editingModel : Model :=
  { metricModel with isEditingLocation := true, locationInput := "Berlin" }

/-- Witness for C9: pressing Enter while editing the location commits
the buffer "Berlin" into the configuration. -/
theorem editSubstate_commit_discard_witness :
    (updateKey 0 true true editingModel "enter").1.config.Location =
      "Berlin" := by
  have h := (editSubstate_commit_discard 0 true true editingModel).2.1 rfl
  rw [h]
  rfl

end WMS
